import Mathlib

/-!
Verification development for the `xinterp` interpolation accessor
(`src/xinterp/xinterp.py`).

The accessor operates on labeled multi-dimensional arrays (xarray
`DataArray`s): a numeric buffer, an ordered list of axis names (`dims`)
and one coordinate vector per axis, with the invariant that
`buffer.shape[i] == len(coords[i])` for every axis `i`.

Embedding choices:
  * numbers are complex rationals `CQ := ℚ × ℚ` (real part, imaginary
    part); real data is represented with imaginary part `0`, matching
    NumPy's value-based `np.iscomplex` test;
  * an N-dimensional buffer is represented by its shape together with a
    total indexing function `List Nat → CQ`; NumPy's
    `reshape (meshgrid ...)` plumbing is translated into direct
    multi-index addressing, and `np.squeeze` / `np.broadcast_to` /
    `transpose` become the corresponding re-indexing functions;
  * Python exceptions become an explicit error type `XErr`; the spec's
    abstract error names map to the concrete exceptions the code raises
    (`UnsupportedShapeError` ↔ `NotImplementedError`,
    `AxisNotFoundError` ↔ `ValueError` from `tuple.index`,
    `ConfigurationError` ↔ `IndexError` on an empty request);
    `unboundLocal` models Python's `UnboundLocalError` (a local variable
    read before any assignment), and `shapeConflict` models the
    `ValueError` xarray raises when the buffer shape conflicts with the
    coordinate lengths at `DataArray` construction;
  * the out-of-scope SciPy primitives (`scipy.interpolate.interp1d` and
    `scipy.interpolate.RegularGridInterpolator`, both with the default
    linear method) are modelled as piecewise-(multi)linear interpolation
    with the documented `bounds_error` / `fill_value` behaviour.
-/

namespace Xinterp

/-- Complex rational: (real part, imaginary part). -/
abbrev CQ := ℚ × ℚ

def cAdd (a b : CQ) : CQ := (a.1 + b.1, a.2 + b.2)

def cSub (a b : CQ) : CQ := (a.1 - b.1, a.2 - b.2)

def cSMul (t : ℚ) (a : CQ) : CQ := (t * a.1, t * a.2)

/-- Multiplication by the imaginary unit `1j`. -/
def jMul (a : CQ) : CQ := (-a.2, a.1)

/-- `np.real`, as a complex value with zero imaginary part. -/
def reV (a : CQ) : CQ := (a.1, 0)

/-- `np.imag`, as a complex value with zero imaginary part. -/
def imV (a : CQ) : CQ := (a.2, 0)

/-- Error type: the Python exceptions the code can raise. -/
inductive XErr where
  | emptyRequest
  | axisNotFound
  | notImplemented
  | unboundLocal
  | shapeConflict
  | outOfBounds
  | tooFewPoints
  deriving DecidableEq, Repr

/-- A plain N-dimensional buffer: shape plus a total indexing function
(multi-index, one entry per axis, row-major semantics). -/
structure NDArr where
  shape : List Nat
  val : List Nat → CQ

/-- A labeled array: axis names in order, one coordinate vector per axis
(parallel to `dims`), and the buffer.  Invariant of the data model:
the buffer extent along axis `i` is `(coords[i]).length`, so the shape
is derived from the coordinates. -/
structure DataArray where
  dims : List String
  coords : List (List ℚ)
  val : List Nat → CQ

def DataArray.shape (da : DataArray) : List Nat := da.coords.map List.length

/-- All multi-indices of a shape, row-major order (the order in which
`np.meshgrid(..., indexing='ij')` flattened with `np.reshape` visits the
grid). -/
def indicesList : List Nat → List (List Nat)
  | [] => [[]]
  | n :: s => (List.range n).flatMap (fun i => (indicesList s).map (i :: ·))

/-- `np.any(np.iscomplex(...))` over a labeled array: some element has a
nonzero imaginary part. -/
def anyComplex (da : DataArray) : Bool :=
  (indicesList da.shape).any (fun idx => (da.val idx).2 != 0)

/-- `fill_value` option: Python `None`, a number (Python `False` equals
`0` and is covered by `num 0`), or the string sentinel `"extrapolate"`. -/
inductive FillValue where
  | noneF
  | num (c : ℚ)
  | extrapolate
  deriving DecidableEq, Repr

/-- Python truthiness of the `fill_value` argument: `None` and `0`
(hence also `False` and `0.0`) are falsy; the nonempty string
`"extrapolate"` is truthy. -/
def truthyFill : FillValue → Bool
  | .noneF => false
  | .num c => c != 0
  | .extrapolate => true

def errOf {α : Type} : Except XErr α → Option XErr
  | .error e => some e
  | .ok _ => none

def okD : Except XErr CQ → CQ
  | .ok v => v
  | .error _ => (0, 0)

def resErr : Except XErr DataArray → Option XErr
  | .error e => some e
  | .ok _ => none

def resDims : Except XErr DataArray → Option (List String)
  | .ok a => some a.dims
  | .error _ => none

def resCoords : Except XErr DataArray → Option (List (List ℚ))
  | .ok a => some a.coords
  | .error _ => none

def resVal : Except XErr DataArray → List Nat → Option CQ
  | .ok a, idx => some (a.val idx)
  | .error _, _ => none

/-- Index of the segment used for (extra)polation at query `q` over the
sorted knot vector `x`: the largest `i ≤ x.length - 2` with `x[i] ≤ q`
(clamped, so out-of-range queries use the first/last segment). -/
def findSeg (x : List ℚ) (q : ℚ) : Nat :=
  min ((x.takeWhile (fun a => decide (a ≤ q))).length - 1) (x.length - 2)

/-- Linear interpolation of the values `y` (indexed by knot position)
at query `q`, using the segment selected by `findSeg`; applied outside
the knot range this linearly extrapolates from the end segment. -/
def lerpSeg (x : List ℚ) (y : Nat → CQ) (q : ℚ) : CQ :=
  let s := findSeg x q
  let x0 := x.getD s 0
  let x1 := x.getD (s + 1) 0
  cAdd (y s) (cSMul ((q - x0) / (x1 - x0)) (cSub (y (s + 1)) (y s)))

/-- Error condition of a `scipy.interpolate.interp1d` call: the
constructor requires at least two sample points, and with
`bounds_error=True` an out-of-range query raises. -/
def interp1dErr (x : List ℚ) (q : ℚ) (be : Bool) : Option XErr :=
  if x.length < 2 then some .tooFewPoints
  else if (decide (q < x.headD 0) || decide (q > x.getLastD 0)) && be then
    some .outOfBounds
  else none

/-- Pointwise model of `scipy.interpolate.interp1d` (linear): on an
out-of-range query with a numeric `fill_value` the fill is returned,
with the `"extrapolate"` sentinel the end segment is extrapolated
(`fill_value = None` cannot reach this model from `interp1d`, which
replaces every falsy fill value first; it is treated like the
sentinel). -/
def interp1dEval (x : List ℚ) (y : Nat → CQ) (q : ℚ) (be : Bool)
    (fv : FillValue) : Except XErr CQ :=
  match interp1dErr x q be with
  | some e => .error e
  | none =>
    if decide (q < x.headD 0) || decide (q > x.getLastD 0) then
      match fv with
      | .num c => .ok (c, 0)
      | _ => .ok (lerpSeg x y q)
    else .ok (lerpSeg x y q)

/-- Is the query point outside the grid along some axis? -/
def outRange (grids : List (List ℚ)) (pt : List ℚ) : Bool :=
  (grids.zip pt).any
    (fun p => decide (p.2 < p.1.headD 0) || decide (p.2 > p.1.getLastD 0))

/-- Error condition of a `RegularGridInterpolator` evaluation. -/
def rgiErr (grids : List (List ℚ)) (pt : List ℚ) (be : Bool) : Option XErr :=
  if grids.any (fun g => g.length < 2) then some .tooFewPoints
  else if outRange grids pt && be then some .outOfBounds
  else none

/-- Multilinear interpolation on the regular grid `grids` of the values
`v` (indexed by multi-index) at the point `pt`, one axis at a time. -/
def multilinear : List (List ℚ) → (List Nat → CQ) → List ℚ → CQ
  | [], v, _ => v []
  | g :: gs, v, pt =>
    let q := pt.headD 0
    let s := findSeg g q
    let x0 := g.getD s 0
    let x1 := g.getD (s + 1) 0
    let a := multilinear gs (fun idx => v (s :: idx)) pt.tail
    let b := multilinear gs (fun idx => v ((s + 1) :: idx)) pt.tail
    cAdd a (cSMul ((q - x0) / (x1 - x0)) (cSub b a))

/-- Pointwise model of `scipy.interpolate.RegularGridInterpolator`
(linear method): `fill_value = None` means extrapolate, a numeric
`fill_value` is returned whenever the point is outside the grid. -/
def rgiEval (grids : List (List ℚ)) (v : List Nat → CQ) (pt : List ℚ)
    (be : Bool) (fv : FillValue) : Except XErr CQ :=
  match rgiErr grids pt be with
  | some e => .error e
  | none =>
    if outRange grids pt then
      match fv with
      | .num c => .ok (c, 0)
      | _ => .ok (multilinear grids v pt)
    else .ok (multilinear grids v pt)

/-- Python `list.index` / `tuple.index`: position of the first
occurrence, `none` when absent (Python raises `ValueError`). -/
def indexOfName : List String → String → Option Nat
  | [], _ => none
  | d :: rest, k => if d == k then some 0 else (indexOfName rest k).map (· + 1)

/-- Total index of the first occurrence (length of the list when
absent); used where the name is known to be present. -/
def idxOfName : List String → String → Nat
  | [], _ => 0
  | d :: rest, k => if d == k then 0 else idxOfName rest k + 1

/-- Re-insert the dropped index `0` at each squeezed (extent-1) axis:
the indexing function of `np.squeeze`. -/
def unsqueezeIdx : List Nat → List Nat → List Nat
  | [], _ => []
  | n :: s, idx =>
    if n == 1 then 0 :: unsqueezeIdx s idx
    else idx.headD 0 :: unsqueezeIdx s idx.tail

/-- `self._obj.squeeze(drop=True)`: drop every axis of extent 1
together with its coordinate (row-major flat layout is unchanged, so
only the indexing is adjusted). -/
def squeeze (obj : DataArray) : DataArray :=
  { dims := ((obj.dims.zip obj.coords).filter (fun p => p.2.length != 1)).map Prod.fst
    coords := ((obj.dims.zip obj.coords).filter (fun p => p.2.length != 1)).map Prod.snd
    val := fun idx => obj.val (unsqueezeIdx obj.shape idx) }

/-- `DataArray.transpose(*order)`: permute the axes to `order`. -/
def transposeTo (order : List String) (da : DataArray) : DataArray :=
  { dims := order
    coords := order.map (fun k => ((da.dims.zip da.coords).lookup k).getD [])
    val := fun idx => da.val (da.dims.map (fun d => idx.getD (idxOfName order d) 0)) }

/-- `np.repeat(y, len(xi), axis=ax)` on an axis of extent 1, together
with the coordinate replacement `new_coords[k] = xi` (the other
coordinates are carried through; the Python deep copies are identity on
values). -/
def repeatArr (obj : DataArray) (ax : Nat) (xi : List ℚ) : DataArray :=
  { dims := obj.dims
    coords := obj.coords.set ax xi
    val := fun idx => obj.val (idx.set ax 0) }

/-- The non-shortcut branch of `interp1d` (source lines 43–58 plus the
output construction, lines 60–68): replace a falsy `fill_value` by the
`"extrapolate"` sentinel, then interpolate along axis `ax` with
`scipy.interpolate.interp1d` — splitting into real and imaginary passes
when any value is complex — and rebuild the labeled array with the
queried coordinates on axis `ax`.  `f(xi)` evaluates the interpolant at
every point of the output grid; an error raised at any point aborts the
call. -/
def interp1dCore (obj : DataArray) (be : Bool) (fill_value : FillValue)
    (ax : Nat) (xi : List ℚ) : Except XErr DataArray :=
  let x := obj.coords.getD ax []
  let fv := if truthyFill fill_value then fill_value else .extrapolate
  let newShape := obj.shape.set ax xi.length
  let q := fun (idx : List Nat) => xi.getD (idx.getD ax 0) 0
  if anyComplex obj then
    match (indicesList newShape).findSome?
        (fun idx => errOf (interp1dEval x (fun j => reV (obj.val (idx.set ax j))) (q idx) be fv)) with
    | some e => .error e
    | none =>
      match (indicesList newShape).findSome?
          (fun idx => errOf (interp1dEval x (fun j => imV (obj.val (idx.set ax j))) (q idx) be fv)) with
      | some e => .error e
      | none => .ok
          { dims := obj.dims
            coords := obj.coords.set ax xi
            val := fun idx =>
              cAdd (okD (interp1dEval x (fun j => reV (obj.val (idx.set ax j))) (q idx) be fv))
                (jMul (okD (interp1dEval x (fun j => imV (obj.val (idx.set ax j))) (q idx) be fv))) }
  else
    match (indicesList newShape).findSome?
        (fun idx => errOf (interp1dEval x (fun j => obj.val (idx.set ax j)) (q idx) be fv)) with
    | some e => .error e
    | none => .ok
        { dims := obj.dims
          coords := obj.coords.set ax xi
          val := fun idx => okD (interp1dEval x (fun j => obj.val (idx.set ax j)) (q idx) be fv) }

/-- `Interpolater.interp1d` (source lines 14–69).  The first request
entry is used (`list(vectors.keys())[0]`; an empty request raises
`IndexError`), the axis is looked up positionally
(`self._obj.dims.index(k)`, `ValueError` when absent), and when the
extent along that axis is 1 and `rep` is set the single slice is
replicated instead of interpolated.  `extend_dims` is accepted and
unused, as in the source. -/
def interp1d (obj : DataArray) (be : Bool) (fill_value : FillValue)
    (extend_dims : Bool) (rep : Bool) (vectors : List (String × List ℚ)) :
    Except XErr DataArray :=
  match vectors with
  | [] => .error .emptyRequest
  | (k, xi) :: _ =>
    match indexOfName obj.dims k with
    | none => .error .axisNotFound
    | some ax =>
      if rep && (obj.shape.getD ax 0 == 1) then .ok (repeatArr obj ax xi)
      else interp1dCore obj be fill_value ax xi

/-- `Interpolater._interpn` (source lines 159–179): reorder the request
vectors into the array's own axis order, build the full Cartesian query
grid in that order (`np.meshgrid(..., indexing='ij')` flattened and
reshaped back is multi-index addressing in row-major order), evaluate a
`RegularGridInterpolator` at every grid point — in separate real and
imaginary passes when any value is complex — and return the buffer with
shape `output_shape`. -/
def _interpn (da : DataArray) (be : Bool) (fill_value : FillValue)
    (vectors : List (String × List ℚ)) : Except XErr NDArr :=
  let points_original := da.coords
  let points_interp := da.dims.map (fun k => (vectors.lookup k).getD [])
  let output_shape := points_interp.map List.length
  let queryPt := fun (idx : List Nat) =>
    (points_interp.zip idx).map (fun p => p.1.getD p.2 0)
  if anyComplex da then
    match (indicesList output_shape).findSome?
        (fun idx => errOf (rgiEval points_original (fun i => reV (da.val i)) (queryPt idx) be fill_value)) with
    | some e => .error e
    | none =>
      match (indicesList output_shape).findSome?
          (fun idx => errOf (rgiEval points_original (fun i => imV (da.val i)) (queryPt idx) be fill_value)) with
      | some e => .error e
      | none => .ok
          { shape := output_shape
            val := fun idx =>
              cAdd (okD (rgiEval points_original (fun i => reV (da.val i)) (queryPt idx) be fill_value))
                (jMul (okD (rgiEval points_original (fun i => imV (da.val i)) (queryPt idx) be fill_value))) }
  else
    match (indicesList output_shape).findSome?
        (fun idx => errOf (rgiEval points_original da.val (queryPt idx) be fill_value)) with
    | some e => .error e
    | none => .ok
        { shape := output_shape
          val := fun idx => okD (rgiEval points_original da.val (queryPt idx) be fill_value) }

/-- List-as-set equality test, as Python `set(a) == set(b)`. -/
def listSetEq (a b : List String) : Bool :=
  a.all (b.contains ·) && b.all (a.contains ·)

/-- Strict superset test, as Python `set(a) > set(b)`. -/
def listSetSup (a b : List String) : Bool :=
  b.all (a.contains ·) && !(a.all (b.contains ·))

/-- Strict subset test, as Python `set(a) < set(b)`. -/
def listSetSub (a b : List String) : Bool :=
  a.all (b.contains ·) && !(b.all (a.contains ·))

/-- `Interpolater.interpn` (source lines 71–157).  Squeeze the array,
then branch on the relationship between the request's key set and the
squeezed axis set:

* no axes left — broadcast the remaining scalar to the request's shape
  and transpose to the request-key order (lines 93–102);
* exact match — interpolate with `_interpn` and wrap the resulting
  buffer with `dims=vectors.keys()` (lines 106–112); xarray's
  constructor raises a conflicting-sizes `ValueError` when the buffer
  shape (which is in the array's own axis order) disagrees with the
  coordinate lengths;
* strict superset — with `extend_dims` interpolate the matching axes,
  `np.broadcast_to` the result across the extension axes (prepended),
  wrap with `dims = ext_keys + i_keys` (same constructor validation)
  and transpose to the request-key order (lines 115–136); otherwise
  `NotImplementedError` (lines 138–140);
* strict subset — with `extend_dims` the branch reads the never-assigned
  local `data` (line 150; the deep copy on line 149 is bound to `dat`),
  raising `UnboundLocalError`; otherwise `NotImplementedError`
  (lines 143–155);
* incomparable key sets — no branch assigns `data_array`, so the final
  `return data_array` (line 157) raises `UnboundLocalError`. -/
def interpn (obj : DataArray) (be : Bool) (fill_value : FillValue)
    (extend_dims : Bool) (vectors : List (String × List ℚ)) :
    Except XErr DataArray :=
  let da := squeeze obj
  let keys_interp := vectors.map Prod.fst
  let keys_data := da.dims
  if keys_data.isEmpty then
    .ok (transposeTo keys_interp
      { dims := keys_interp
        coords := vectors.map Prod.snd
        val := fun _ => da.val [] })
  else if listSetEq keys_interp keys_data then
    match _interpn da be fill_value vectors with
    | .error e => .error e
    | .ok nd =>
      if nd.shape == vectors.map (fun p => p.2.length) then
        .ok { dims := keys_interp, coords := vectors.map Prod.snd, val := nd.val }
      else .error .shapeConflict
  else if listSetSup keys_interp keys_data then
    if extend_dims then
      let i_vectors := vectors.filter (fun p => keys_data.contains p.1)
      let i_keys := keys_interp.filter (fun k => keys_data.contains k)
      let ext_vectors := vectors.filter (fun p => !(keys_data.contains p.1))
      let ext_keys := keys_interp.filter (fun k => !(keys_data.contains k))
      match _interpn da be fill_value i_vectors with
      | .error e => .error e
      | .ok nd =>
        let ext_shape := ext_vectors.map (fun p => p.2.length)
        let b : DataArray :=
          { dims := ext_keys ++ i_keys
            coords := ext_vectors.map Prod.snd ++ i_vectors.map Prod.snd
            val := fun idx => nd.val (idx.drop ext_shape.length) }
        if ext_shape ++ nd.shape == b.shape then
          .ok (transposeTo keys_interp b)
        else .error .shapeConflict
    else .error .notImplemented
  else if listSetSub keys_interp keys_data then
    if extend_dims then .error .unboundLocal
    else .error .notImplemented
  else .error .unboundLocal

/-- `Interpolater.smart` (source lines 182–231): exactly one request
axis routes to `interp1d` with `repeat=True` hardwired (line 226, the
caller's `rep` is ignored); otherwise `interpn`. -/
def smart (obj : DataArray) (be : Bool) (fill_value : FillValue)
    (rep : Bool) (extend_dims : Bool) (vectors : List (String × List ℚ)) :
    Except XErr DataArray :=
  if vectors.length == 1 then
    interp1d obj be fill_value extend_dims true vectors
  else
    interpn obj be fill_value extend_dims vectors

/-! Claim-side definitions: the real/imaginary decomposition the spec's
`ComplexSplit` rule talks about (`result = real_result + 1j * imag_result`). -/

/-- The real part of a labeled array, as a (real-valued) labeled array. -/
def reArr (da : DataArray) : DataArray := { da with val := fun i => reV (da.val i) }

/-- The imaginary part of a labeled array, as a (real-valued) labeled array. -/
def imArr (da : DataArray) : DataArray := { da with val := fun i => imV (da.val i) }

/-- Elementwise `a + 1j * b` on labeled arrays (labels taken from `a`). -/
def addJ (a b : DataArray) : DataArray :=
  { dims := a.dims, coords := a.coords, val := fun i => cAdd (a.val i) (jMul (b.val i)) }

/-- `a + 1j * b` lifted to fallible results. -/
def combineJ : Except XErr DataArray → Except XErr DataArray → Except XErr DataArray
  | .error e, _ => .error e
  | .ok _, .error e => .error e
  | .ok a, .ok b => .ok (addJ a b)

/-- Elementwise `a + 1j * b` on plain buffers (shape taken from `a`). -/
def addJN (a b : NDArr) : NDArr :=
  { shape := a.shape, val := fun i => cAdd (a.val i) (jMul (b.val i)) }

/-- `a + 1j * b` lifted to fallible buffers. -/
def combineJN : Except XErr NDArr → Except XErr NDArr → Except XErr NDArr
  | .error e, _ => .error e
  | .ok _, .error e => .error e
  | .ok a, .ok b => .ok (addJN a b)

/-- The empty axis name, used as an irrelevant `getD` default. -/
def noDim : String := ""

/-! Concrete arrays used by the counterexample/witness theorems. -/

def sX : String := "x"

def sY : String := "y"

def sZ : String := "z"

def sT : String := "t"

def sP : String := "p"

def sQ : String := "q"

def tbl2 : List (List CQ) := [[(0, 0), (1, 0)], [(2, 0), (3, 0)]]

def tbl3 : List (List CQ) := [[(0, 0), (1, 0)], [(2, 0), (3, 0)], [(4, 0), (5, 0)]]

/-- 2×2 array with dims `(y, x)`, `y = x = [0, 1]`, values `[[0,1],[2,3]]`
(element at `y=i, x=j` is `2*i + j`). -/
def arrYX2 : DataArray :=
  { dims := [sY, sX], coords := [[0, 1], [0, 1]]
    val := fun idx => (tbl2.getD (idx.getD 0 0) []).getD (idx.getD 1 0) (0, 0) }

/-- 3×2 array with dims `(y, x)`, `y = [0, 1, 2]`, `x = [0, 1]`. -/
def arrYX3 : DataArray :=
  { dims := [sY, sX], coords := [[0, 1, 2], [0, 1]]
    val := fun idx => (tbl3.getD (idx.getD 0 0) []).getD (idx.getD 1 0) (0, 0) }

/-- 2×2 array with dims `(x, y)`. -/
def arrXY2 : DataArray :=
  { dims := [sX, sY], coords := [[0, 1], [0, 1]]
    val := fun idx => (tbl2.getD (idx.getD 0 0) []).getD (idx.getD 1 0) (0, 0) }

/-- 1-D array with single axis `x` of extent 1 and value `[5]`. -/
def arr5 : DataArray := { dims := [sX], coords := [[0]], val := fun _ => ((5 : ℚ), 0) }

/-- 1-D array with axis `x = [0, 1]` and values `[10, 20]`. -/
def arrX : DataArray :=
  { dims := [sX], coords := [[0, 1]]
    val := fun idx => ([((10 : ℚ), (0 : ℚ)), (20, 0)].getD (idx.getD 0 0) (0, 0)) }

/-- Array with axes `x, y`, both of extent 1 (fully squeezable), value 9. -/
def arrS : DataArray := { dims := [sX, sY], coords := [[7], [3]], val := fun _ => ((9 : ℚ), 0) }

/-- 1-D complex array with axis `t = [0, 1]` and values `[1+2j, 3+4j]`. -/
def arrC : DataArray :=
  { dims := [sT], coords := [[0, 1]]
    val := fun idx => ([((1 : ℚ), (2 : ℚ)), (3, 4)].getD (idx.getD 0 0) (0, 0)) }

/-! Helper lemmas. -/

theorem errOf_interp1dEval (x : List ℚ) (y : Nat → CQ) (q : ℚ) (be : Bool)
    (fv : FillValue) : errOf (interp1dEval x y q be fv) = interp1dErr x q be := by
  unfold interp1dEval
  cases h : interp1dErr x q be with
  | some e => rfl
  | none =>
    simp only []
    split
    · cases fv <;> rfl
    · rfl

theorem errOf_rgiEval (grids : List (List ℚ)) (v : List Nat → CQ) (pt : List ℚ)
    (be : Bool) (fv : FillValue) : errOf (rgiEval grids v pt be fv) = rgiErr grids pt be := by
  unfold rgiEval
  cases h : rgiErr grids pt be with
  | some e => rfl
  | none =>
    simp only []
    split
    · cases fv <;> rfl
    · rfl

theorem cAdd_reV_jMul_imV (v : CQ) : cAdd (reV v) (jMul (imV v)) = v := by
  simp [cAdd, reV, imV, jMul, Prod.ext_iff]

theorem anyComplex_reArr (da : DataArray) : anyComplex (reArr da) = false := by
  simp [anyComplex, reArr, reV, DataArray.shape]

theorem anyComplex_imArr (da : DataArray) : anyComplex (imArr da) = false := by
  simp [anyComplex, imArr, imV, DataArray.shape]

theorem indexOfName_eq_none {l : List String} {k : String} (h : ¬ k ∈ l) :
    indexOfName l k = none := by
  induction l with
  | nil => rfl
  | cons d rest ih =>
    simp only [List.mem_cons, not_or] at h
    have hd : (d == k) = false := by
      simp [beq_iff_eq]
      exact fun hdk => h.1 (hdk.symm)
    simp [indexOfName, hd, ih h.2]

theorem idxOfName_lt_length {l : List String} {k : String} (h : k ∈ l) :
    idxOfName l k < l.length := by
  induction l with
  | nil => cases h
  | cons d rest ih =>
    by_cases hdk : d == k
    · simp [idxOfName, hdk]
    · rcases List.mem_cons.mp h with h1 | h1
      · exact absurd (by simp [beq_iff_eq, h1]) hdk
      · simp only [idxOfName, hdk, if_false, List.length_cons]
        exact Nat.succ_lt_succ (ih h1)

theorem getD_idxOfName {l : List String} {k : String} (h : k ∈ l) (d : String) :
    l.getD (idxOfName l k) d = k := by
  induction l with
  | nil => cases h
  | cons a rest ih =>
    by_cases hak : a == k
    · simp only [idxOfName, hak, if_true]
      simpa [beq_iff_eq] using hak
    · rcases List.mem_cons.mp h with h1 | h1
      · exact absurd (by simp [beq_iff_eq, h1]) hak
      · simp only [idxOfName, hak, if_false]
        simpa [List.getD] using ih h1

theorem getD_set_ne {l : List Nat} {p m : Nat} (n : Nat) (h : m ≠ p) :
    (l.set p n).getD m 0 = l.getD m 0 := by
  rw [List.getD_eq_getElem?_getD, List.getD_eq_getElem?_getD,
    List.getElem?_set_ne (fun hpm => h hpm.symm)]

theorem lookup_zip_self : ∀ (ks : List String) (vs : List (List ℚ)),
    ks.Nodup → ks.length = vs.length →
    ks.map (fun k => (((ks.zip vs).lookup k).getD [])) = vs := by
  intro ks
  induction ks with
  | nil =>
    intro vs _ hl
    cases vs with
    | nil => rfl
    | cons v vs => cases hl
  | cons k ks ih =>
    intro vs hn hl
    cases vs with
    | nil => cases hl
    | cons v vs =>
      simp only [List.zip_cons_cons, List.map_cons, List.cons.injEq]
      refine ⟨by simp [List.lookup], ?_⟩
      have hk : ¬ k ∈ ks := (List.nodup_cons.mp hn).1
      have h2 : ks.map (fun a => ((((k, v) :: ks.zip vs).lookup a).getD ([] : List ℚ)))
          = ks.map (fun a => (((ks.zip vs).lookup a).getD [])) := by
        apply List.map_congr_left
        intro a ha
        have hak : (a == k) = false := by
          simp [beq_iff_eq]
          exact fun e => hk (e ▸ ha)
        simp [List.lookup, hak]
      rw [h2]
      exact ih vs (List.nodup_cons.mp hn).2 (by simpa using hl)

theorem interp1d_repeat_eq (obj : DataArray) (be : Bool) (fv : FillValue)
    (ed : Bool) (k : String) (xi : List ℚ) (ax : Nat)
    (hax : indexOfName obj.dims k = some ax)
    (h1 : obj.shape.getD ax 0 = 1) :
    interp1d obj be fv ed true [(k, xi)] = .ok (repeatArr obj ax xi) := by
  simp only [interp1d]
  rw [hax]
  have hc : (true && (obj.shape.getD ax 0 == 1)) = true := by rw [h1]; rfl
  simp only [hc, if_true]

theorem interp1dCore_falsy_fill (obj : DataArray) (be : Bool) (fv : FillValue)
    (ax : Nat) (xi : List ℚ) (h : truthyFill fv = false) :
    interp1dCore obj be fv ax xi = interp1dCore obj be .extrapolate ax xi := by
  unfold interp1dCore
  rw [h]
  rfl

/-! Claim theorems. -/

/-- Claim C3: for a single-axis request where the array's extent along
the named axis is 1 and `repeat=true`, `interp1d` succeeds and every
output slice along that axis is the original single slice — pure
replication (`np.repeat`), no interpolation: the output value at any
multi-index is the input value with that axis's index forced to 0, and
the only change to the labels is the new coordinate vector on that
axis. -/
theorem interp1d_repeat_replicates (obj : DataArray) (be : Bool) (fv : FillValue)
    (ed : Bool) (k : String) (xi : List ℚ) (ax : Nat)
    (hax : indexOfName obj.dims k = some ax)
    (h1 : obj.shape.getD ax 0 = 1) :
    interp1d obj be fv ed true [(k, xi)] = .ok (repeatArr obj ax xi)
    ∧ (∀ idx, (repeatArr obj ax xi).val idx = obj.val (idx.set ax 0))
    ∧ (repeatArr obj ax xi).dims = obj.dims
    ∧ (repeatArr obj ax xi).coords = obj.coords.set ax xi :=
  ⟨interp1d_repeat_eq obj be fv ed k xi ax hax h1, fun _ => rfl, rfl, rfl⟩

/-- Witness for C3: the spec's concrete scenario C — a single axis `x`
of extent 1 with value `[5]`, queried at `x = [0,1,2,3]`, yields
`[5,5,5,5]`. -/
theorem interp1d_repeat_replicates_witness :
    indexOfName arr5.dims sX = some 0
    ∧ arr5.shape.getD 0 0 = 1
    ∧ interp1d arr5 false .noneF true true [(sX, [0, 1, 2, 3])] = .ok (repeatArr arr5 0 [0, 1, 2, 3])
    ∧ resVal (interp1d arr5 false .noneF true true [(sX, [0, 1, 2, 3])]) [3] = some ((5 : ℚ), (0 : ℚ)) :=
  ⟨by decide, by decide,
    (interp1d_repeat_replicates arr5 false .noneF true sX [0, 1, 2, 3] 0 (by decide) (by decide)).1,
    by decide⟩

/-- Claim C5: a single-axis request whose axis name is not among the
array's dims makes `interp1d` fail with the axis-lookup error
(`tuple.index` raising `ValueError`, the spec's `AxisNotFoundError`). -/
theorem interp1d_missing_axis (obj : DataArray) (be : Bool) (fv : FillValue)
    (ed rep : Bool) (k : String) (xi : List ℚ) (rest : List (String × List ℚ))
    (h : ¬ k ∈ obj.dims) :
    interp1d obj be fv ed rep ((k, xi) :: rest) = .error .axisNotFound := by
  simp only [interp1d]
  rw [indexOfName_eq_none h]

/-- Witness for C5: requesting axis `z` on an array with dims `(x, y)`. -/
theorem interp1d_missing_axis_witness :
    ¬ sZ ∈ arrXY2.dims
    ∧ interp1d arrXY2 false .noneF true true [(sZ, [0, 1])] = .error .axisNotFound :=
  ⟨by decide, interp1d_missing_axis arrXY2 false .noneF true true sZ [0, 1] [] (by decide)⟩

/-- Claim C9 (implicit): `smart` with exactly one requested axis calls
`interp1d` with `repeat` hardwired to `true`, ignoring the caller's
`rep` argument; consequently `smart(repeat=False)` on an axis of
extent 1 still replicates the single slice. -/
theorem smart_single_axis_forces_repeat (obj : DataArray) (be : Bool) (fv : FillValue)
    (ed : Bool) (k : String) (xi : List ℚ) (ax : Nat)
    (hax : indexOfName obj.dims k = some ax)
    (h1 : obj.shape.getD ax 0 = 1) :
    (∀ rep, smart obj be fv rep ed [(k, xi)] = interp1d obj be fv ed true [(k, xi)])
    ∧ smart obj be fv false ed [(k, xi)] = .ok (repeatArr obj ax xi) := by
  constructor
  · intro rep; rfl
  · show interp1d obj be fv ed true [(k, xi)] = .ok (repeatArr obj ax xi)
    exact interp1d_repeat_eq obj be fv ed k xi ax hax h1

/-- Witness for C9: `smart` with `repeat=False` on the extent-1 axis
still replicates. -/
theorem smart_single_axis_forces_repeat_witness :
    indexOfName arr5.dims sX = some 0
    ∧ smart arr5 false .noneF false true [(sX, [0, 1, 2, 3])] = .ok (repeatArr arr5 0 [0, 1, 2, 3]) :=
  ⟨by decide,
    (smart_single_axis_forces_repeat arr5 false .noneF true sX [0, 1, 2, 3] 0 (by decide) (by decide)).2⟩

theorem interp1d_fill_congr (obj : DataArray) (be ed rep : Bool)
    (vectors : List (String × List ℚ)) (fv : FillValue) (h : truthyFill fv = false) :
    interp1d obj be fv ed rep vectors = interp1d obj be .extrapolate ed rep vectors := by
  cases vectors with
  | nil => rfl
  | cons hd t =>
    obtain ⟨k, xi⟩ := hd
    simp only [interp1d]
    cases hax : indexOfName obj.dims k with
    | none => rfl
    | some ax =>
      simp only []
      cases hc : (rep && (obj.shape.getD ax 0 == 1)) with
      | true => simp
      | false =>
        simp only [Bool.false_eq_true, if_false]
        exact interp1dCore_falsy_fill obj be fv ax xi h

/-- Claim C10 (implicit): in `interp1d`, any falsy `fill_value` — the
unset `None`, but also the number `0` (and hence Python's `False` and
`0.0`, which compare equal to `0`) — is replaced by the
`"extrapolate"` sentinel, so a caller-supplied fill value of `0` is
treated as extrapolation; the call behaves identically to one made with
the sentinel. -/
theorem interp1d_falsy_fill_extrapolates (obj : DataArray) (be ed rep : Bool)
    (vectors : List (String × List ℚ)) :
    interp1d obj be (.num 0) ed rep vectors = interp1d obj be .extrapolate ed rep vectors
    ∧ interp1d obj be .noneF ed rep vectors = interp1d obj be .extrapolate ed rep vectors
    ∧ truthyFill (.num 0) = false ∧ truthyFill .noneF = false :=
  ⟨interp1d_fill_congr obj be ed rep vectors (.num 0) (by decide),
    interp1d_fill_congr obj be ed rep vectors .noneF rfl, by decide, rfl⟩

theorem dataArrayExt {a b : DataArray} (h1 : a.dims = b.dims)
    (h2 : a.coords = b.coords) (h3 : a.val = b.val) : a = b := by
  cases a; cases b; cases h1; cases h2; cases h3; rfl

theorem ndArrExt {a b : NDArr} (h1 : a.shape = b.shape)
    (h2 : a.val = b.val) : a = b := by
  cases a; cases b; cases h1; cases h2; rfl

theorem reArr_dims (da : DataArray) : (reArr da).dims = da.dims := rfl

theorem imArr_dims (da : DataArray) : (imArr da).dims = da.dims := rfl

theorem reArr_coords (da : DataArray) : (reArr da).coords = da.coords := rfl

theorem imArr_coords (da : DataArray) : (imArr da).coords = da.coords := rfl

theorem reArr_shape (da : DataArray) : (reArr da).shape = da.shape := rfl

theorem imArr_shape (da : DataArray) : (imArr da).shape = da.shape := rfl

/-- Claim C7: when every axis of the array is squeezed away (case 2),
`interpn` performs no interpolation at all: it returns the scalar value
broadcast to the shape given by the request's per-axis sample counts,
with coordinates equal to the requested vectors, in the request-key
order. -/
theorem interpn_scalar_broadcast (obj : DataArray) (be : Bool) (fv : FillValue)
    (ed : Bool) (vectors : List (String × List ℚ))
    (hd : (squeeze obj).dims = [])
    (hn : (vectors.map Prod.fst).Nodup) :
    interpn obj be fv ed vectors
      = .ok { dims := vectors.map Prod.fst
              coords := vectors.map Prod.snd
              val := fun _ => (squeeze obj).val [] } := by
  simp only [interpn, hd, List.isEmpty_nil, if_true]
  congr 1
  apply dataArrayExt
  · rfl
  · show (vectors.map Prod.fst).map
        (fun k => ((((vectors.map Prod.fst).zip (vectors.map Prod.snd)).lookup k).getD [])) = _
    exact lookup_zip_self _ _ hn (by simp)
  · rfl

/-- Witness for C7: a 1×1 array with axes `x, y` (both squeezed away)
and value 9, requested on fresh axes `p` (2 samples) and `q`
(3 samples), yields the constant-9 array labeled `p, q`. -/
theorem interpn_scalar_broadcast_witness :
    (squeeze arrS).dims = []
    ∧ interpn arrS false .noneF true [(sP, [0, 1]), (sQ, [0, 1, 2])]
      = .ok { dims := [sP, sQ], coords := [[0, 1], [0, 1, 2]]
              val := fun _ => (squeeze arrS).val [] } :=
  ⟨by decide,
    interpn_scalar_broadcast arrS false .noneF true [(sP, [0, 1]), (sQ, [0, 1, 2])]
      (by decide) (by decide)⟩

theorem interp1dCore_split (obj : DataArray) (be : Bool) (fv : FillValue) (ax : Nat)
    (xi : List ℚ) (h : anyComplex obj = true) :
    interp1dCore obj be fv ax xi
      = combineJ (interp1dCore (reArr obj) be fv ax xi)
          (interp1dCore (imArr obj) be fv ax xi) := by
  simp only [interp1dCore, reArr_coords, imArr_coords, reArr_shape, imArr_shape,
    h, anyComplex_reArr, anyComplex_imArr, if_true, Bool.false_eq_true, if_false]
  simp only [reArr, imArr, errOf_interp1dEval]
  split <;> rfl

theorem _interpn_split (da : DataArray) (be : Bool) (fv : FillValue)
    (vectors : List (String × List ℚ)) (h : anyComplex da = true) :
    _interpn da be fv vectors
      = combineJN (_interpn (reArr da) be fv vectors) (_interpn (imArr da) be fv vectors) := by
  simp only [_interpn, reArr_coords, imArr_coords, reArr_dims, imArr_dims,
    h, anyComplex_reArr, anyComplex_imArr, if_true, Bool.false_eq_true, if_false]
  simp only [reArr, imArr, errOf_rgiEval]
  split <;> rfl

/-- Claim C4: for a complex-valued input (some element has a nonzero
imaginary part, NumPy's `np.any(np.iscomplex(...))`), both the 1-D
strategy and the N-D strategy interpolate the real part and the
imaginary part independently — with identical `bounds_error` and
`fill_value` options — and recombine as
`result = real_result + 1j * imag_result`, elementwise. -/
theorem complex_split_recombine (da : DataArray) (be : Bool) (fv : FillValue)
    (ed rep : Bool) (vectors : List (String × List ℚ)) (h : anyComplex da = true) :
    interp1d da be fv ed rep vectors
      = combineJ (interp1d (reArr da) be fv ed rep vectors)
          (interp1d (imArr da) be fv ed rep vectors)
    ∧ _interpn da be fv vectors
      = combineJN (_interpn (reArr da) be fv vectors) (_interpn (imArr da) be fv vectors) := by
  refine ⟨?_, _interpn_split da be fv vectors h⟩
  cases vectors with
  | nil => rfl
  | cons hd t =>
    obtain ⟨k, xi⟩ := hd
    simp only [interp1d, reArr_dims, imArr_dims, reArr_shape, imArr_shape]
    cases hax : indexOfName da.dims k with
    | none => rfl
    | some ax =>
      simp only []
      by_cases hc : (rep && (da.shape.getD ax 0 == 1)) = true
      · rw [if_pos hc, if_pos hc, if_pos hc]
        show Except.ok _ = combineJ (.ok _) (.ok _)
        simp only [combineJ]
        congr 1
        apply dataArrayExt
        · rfl
        · rfl
        · funext i
          show da.val (i.set ax 0)
            = cAdd (reV (da.val (i.set ax 0))) (jMul (imV (da.val (i.set ax 0))))
          exact (cAdd_reV_jMul_imV _).symm
      · rw [if_neg hc, if_neg hc, if_neg hc]
        exact interp1dCore_split da be fv ax xi h

/-- Witness for C4: the complex array `[1+2j, 3+4j]` on axis
`t = [0, 1]`. -/
theorem complex_split_recombine_witness :
    anyComplex arrC = true
    ∧ interp1d arrC false .noneF true true [(sT, [0, 1])]
      = combineJ (interp1d (reArr arrC) false .noneF true true [(sT, [0, 1])])
          (interp1d (imArr arrC) false .noneF true true [(sT, [0, 1])])
    ∧ _interpn arrC false .noneF [(sT, [0, 1])]
      = combineJN (_interpn (reArr arrC) false .noneF [(sT, [0, 1])])
          (_interpn (imArr arrC) false .noneF [(sT, [0, 1])]) :=
  ⟨by decide,
    (complex_split_recombine arrC false .noneF true true [(sT, [0, 1])] (by decide)).1,
    (complex_split_recombine arrC false .noneF true true [(sT, [0, 1])] (by decide)).2⟩

/-- Claim C1 fails on the code (code bug): the exact-match branch of
`interpn` (case 3) wraps `_interpn`'s buffer — which is laid out in the
array's own axis order — directly with `dims=vectors.keys()` and never
transposes, although its sibling branches (cases 2 and 4) both end with
`transpose(*vectors.keys())`.  Evaluated on arrays with dims `(y, x)`:

* requesting `x` with 2 samples and `y` with 3 samples crashes with
  xarray's conflicting-sizes `ValueError` (the buffer is 3×2 but the
  labels demand 2×3) instead of returning a request-ordered array;
* with 2 samples on each axis the call returns, labeled `(x, y)`, but
  the element at `x=0, y=1` (index `[0, 1]`) is `1` — the input value
  at `y=0, x=1` — whereas the input value at `x=0, y=1` is `2`: the
  values are transposed relative to the labels. -/
theorem interpn_case3_no_transpose :
    resErr (interpn arrYX3 false .noneF true [(sX, [0, 1]), (sY, [0, 1, 2])])
      = some .shapeConflict
    ∧ resDims (interpn arrYX2 false .noneF true [(sX, [0, 1]), (sY, [0, 1])])
      = some [sX, sY]
    ∧ resVal (interpn arrYX2 false .noneF true [(sX, [0, 1]), (sY, [0, 1])]) [0, 1]
      = some ((1 : ℚ), (0 : ℚ))
    ∧ arrYX2.val [1, 0] = ((2 : ℚ), (0 : ℚ)) :=
  ⟨by decide, by decide, by with_unfolding_all rfl, by decide⟩

/-- Claim C2 fails on the code (code bug) in the strict-subset case with
`extend_dims=True` (the default): line 149 binds the deep copy to `dat`
but line 150 reads the never-assigned local `data`, so Python raises
`UnboundLocalError` before reaching the `NotImplementedError` on
line 153 — the spec's negative scenario (array with axes `x, y`,
request naming only `x`) does not produce the documented
`UnsupportedShapeError`.  The other two failure legs of the claim do
hold: strict subset with `extend_dims=False` and strict superset with
`extend_dims=False` both raise `NotImplementedError`. -/
theorem interpn_subset_unbound_local :
    resErr (interpn arrXY2 false .noneF true [(sX, [0, 1])]) = some .unboundLocal
    ∧ resErr (interpn arrXY2 false .noneF false [(sX, [0, 1])]) = some .notImplemented
    ∧ resErr (interpn arrXY2 false .noneF false [(sX, [0, 1]), (sY, [0, 1]), (sZ, [0, 1])])
      = some .notImplemented :=
  ⟨by decide, by decide, by decide⟩

theorem contains_eq_true_iff_mem {l : List String} {a : String} :
    l.contains a = true ↔ a ∈ l := by simp

theorem transposeTo_val_drop (K ext_keys i_keys : List String)
    (coords : List (List ℚ)) (nd : NDArr) (extLen : Nat) (hlen : ext_keys.length = extLen)
    (idx : List Nat) :
    (transposeTo K
        { dims := ext_keys ++ i_keys
          coords := coords
          val := fun j => nd.val (j.drop extLen) }).val idx
      = nd.val (i_keys.map (fun d => idx.getD (idxOfName K d) 0)) := by
  show nd.val ((((ext_keys ++ i_keys).map (fun d => idx.getD (idxOfName K d) 0)).drop extLen)) = _
  congr 1
  rw [List.map_append, List.drop_left' (by simpa using hlen)]

/-- Claim C6: for a request whose axis set strictly contains the
squeezed array's axis set (case 4) with `extend_dims=true`, whenever the
call returns an array: (i) the returned axis order is exactly the
request-key order; (ii) the output is constant along every pure
extension axis (any slice along such an axis equals any other — the
broadcast invariant); and (iii) at every multi-index the output value
equals the value the case-3 call (`interpn` restricted to the
non-extension entries of the request) produces at the projected
multi-index over the interpolated axes alone. -/
theorem interpn_superset_broadcast (obj : DataArray) (be : Bool) (fv : FillValue)
    (vectors : List (String × List ℚ))
    (hne : (squeeze obj).dims.isEmpty = false)
    (hsup : listSetSup (vectors.map Prod.fst) (squeeze obj).dims = true)
    (hok : resErr (interpn obj be fv true vectors) = none) :
    resDims (interpn obj be fv true vectors) = some (vectors.map Prod.fst)
    ∧ (∀ p idx n, ¬ (vectors.map Prod.fst).getD p noDim ∈ (squeeze obj).dims →
        resVal (interpn obj be fv true vectors) (idx.set p n)
          = resVal (interpn obj be fv true vectors) idx)
    ∧ (∀ idx,
        resVal (interpn obj be fv true (vectors.filter (fun pr => (squeeze obj).dims.contains pr.1)))
          (((vectors.map Prod.fst).filter (fun k => (squeeze obj).dims.contains k)).map
            (fun d => idx.getD (idxOfName (vectors.map Prod.fst) d) 0))
          = resVal (interpn obj be fv true vectors) idx) := by
  have hsup' : ((squeeze obj).dims.all (fun x => (vectors.map Prod.fst).contains x)
      && !((vectors.map Prod.fst).all (fun x => (squeeze obj).dims.contains x))) = true := hsup
  have hDK : (squeeze obj).dims.all (fun x => (vectors.map Prod.fst).contains x) = true :=
    ((Bool.and_eq_true _ _).mp hsup').1
  have hKD : (vectors.map Prod.fst).all (fun x => (squeeze obj).dims.contains x) = false := by
    have h2 := ((Bool.and_eq_true _ _).mp hsup').2
    cases hX : (vectors.map Prod.fst).all (fun x => (squeeze obj).dims.contains x)
    · rfl
    · rw [hX] at h2; exact absurd h2 (by decide)
  have hEq : listSetEq (vectors.map Prod.fst) (squeeze obj).dims = false := by
    unfold listSetEq
    rw [hKD]
    rfl
  have hEq3 : listSetEq ((vectors.filter (fun p => (squeeze obj).dims.contains p.1)).map Prod.fst)
      (squeeze obj).dims = true := by
    unfold listSetEq
    rw [Bool.and_eq_true]
    constructor
    · rw [List.all_eq_true]
      intro x hx
      rcases List.mem_map.mp hx with ⟨pr, hpr, hfst⟩
      rcases List.mem_filter.mp hpr with ⟨_, hc⟩
      rw [← hfst]
      exact hc
    · rw [List.all_eq_true]
      intro d hd
      rw [contains_eq_true_iff_mem]
      have hdK : d ∈ vectors.map Prod.fst :=
        contains_eq_true_iff_mem.mp (List.all_eq_true.mp hDK d hd)
      rcases List.mem_map.mp hdK with ⟨pr, hpr, hfst⟩
      apply List.mem_map.mpr
      refine ⟨pr, List.mem_filter.mpr ⟨hpr, ?_⟩, hfst⟩
      rw [hfst, contains_eq_true_iff_mem]
      exact hd
  simp only [interpn, hne, hEq, hEq3, hsup, DataArray.shape, Bool.false_eq_true, if_false,
    if_true] at hok ⊢
  cases hnd : _interpn (squeeze obj) be fv
      (List.filter (fun p => (squeeze obj).dims.contains p.1) vectors) with
  | error e =>
    rw [hnd] at hok
    simp [resErr] at hok
  | ok nd =>
    rw [hnd] at hok
    simp only [] at hok ⊢
    split at hok
    case isFalse => simp [resErr] at hok
    case isTrue hchk =>
      simp only [if_pos hchk]
      have hlen : ((vectors.map Prod.fst).filter (fun k => !((squeeze obj).dims.contains k))).length
          = ((vectors.filter (fun p => !((squeeze obj).dims.contains p.1))).map
              (fun p => p.2.length)).length := by
        simp only [List.filter_map, List.length_map]
        rfl
      refine ⟨rfl, ?_, ?_⟩
      · intro p idx n hp
        simp only [resVal]
        rw [transposeTo_val_drop _ _ _ _ _ _ hlen, transposeTo_val_drop _ _ _ _ _ _ hlen]
        congr 2
        apply List.map_congr_left
        intro d hd
        rcases List.mem_filter.mp hd with ⟨hdK, hdD⟩
        refine getD_set_ne n (fun hcon => hp ?_)
        rw [← hcon, getD_idxOfName hdK, ← contains_eq_true_iff_mem]
        exact hdD
      · intro idx
        have hsh := eq_of_beq hchk
        rw [List.map_append] at hsh
        have hpre : List.map List.length
              (List.map Prod.snd (vectors.filter (fun p => !((squeeze obj).dims.contains p.1))))
            = (vectors.filter (fun p => !((squeeze obj).dims.contains p.1))).map
                (fun p => p.2.length) := by
          rw [List.map_map]
          rfl
        rw [hpre] at hsh
        have hnds : nd.shape
            = List.map List.length
                (List.map Prod.snd (vectors.filter (fun p => (squeeze obj).dims.contains p.1))) :=
          List.append_cancel_left hsh
        have hchk3 : (nd.shape
            == (vectors.filter (fun p => (squeeze obj).dims.contains p.1)).map
                (fun p => p.2.length)) = true := by
          rw [hnds, List.map_map]
          exact beq_self_eq_true _
        rw [if_pos hchk3]
        simp only [resVal]
        rw [transposeTo_val_drop _ _ _ _ _ _ hlen]

/-- Request used by the C6 witness: extension axis `y` (3 samples)
followed by the data axis `x` (2 samples). -/
def reqYX : List (String × List ℚ) := [(sY, [5, 6, 7]), (sX, [0, 1])]

/-- Witness for C6: the 1-D array `arrX` (axis `x`) requested on
`y` (pure extension) and `x` (case 4). -/
theorem interpn_superset_broadcast_witness :
    (squeeze arrX).dims.isEmpty = false
    ∧ listSetSup (reqYX.map Prod.fst) (squeeze arrX).dims = true
    ∧ resErr (interpn arrX false .noneF true reqYX) = none
    ∧ resDims (interpn arrX false .noneF true reqYX) = some (reqYX.map Prod.fst) :=
  ⟨by decide, by decide, by decide,
    (interpn_superset_broadcast arrX false .noneF reqYX
      (by decide) (by decide) (by decide)).1⟩

end Xinterp
